import Mathlib

/-!
Verification of the credential-issuance and session-brokering layer of the
deribit-mcp-server repository.

The OAuth surface (dynamic client registration, authorization-code + PKCE
grant, refresh grant) is embedded from the Express handlers in the SSE+OAuth
server source; the session manager and JSON-RPC dispatcher are embedded from
the streamable-HTTP server source.  JavaScript `Map`s become association
lists over `String` keys; `undefined`/missing request fields become
`Option`; JavaScript truthiness of strings is modelled explicitly
(`none` and `some ""` are falsy).  External collaborators (the SHA-256
digest, the WHATWG URL parser, the Deribit HTTP fetch, and the clock/random
source) are parameters of the embedded operations.
-/

namespace DeribitMCP

/-- Lookup in a JS `Map` modelled as an association list (first match). -/
def mget {α : Type} : List (String × α) → String → Option α
  | [], _ => none
  | (k, v) :: rest, key => if k = key then some v else mget rest key

/-- `Map.get` applied to a possibly-`undefined` key: `get(undefined)` is `undefined`. -/
def mgetO {α : Type} (m : List (String × α)) (k : Option String) : Option α :=
  match k with
  | none => none
  | some s => mget m s

/-- `Map.set`: replace the binding if the key is present, else append. -/
def mset {α : Type} : List (String × α) → String → α → List (String × α)
  | [], key, val => [(key, val)]
  | (k, v) :: rest, key, val =>
      if k = key then (key, val) :: rest else (k, v) :: mset rest key val

/-- `Map.delete`: drop every binding of the key. -/
def mdel {α : Type} : List (String × α) → String → List (String × α)
  | [], _ => []
  | (k, v) :: rest, key => if k = key then mdel rest key else (k, v) :: mdel rest key

theorem mget_mset_self {α : Type} (m : List (String × α)) (k : String) (v : α) :
    mget (mset m k v) k = some v := by
  induction m with
  | nil => simp [mget, mset]
  | cons hd tl ih =>
      obtain ⟨k', v'⟩ := hd
      by_cases h : k' = k
      · simp [mget, mset, h]
      · simp [mget, mset, h, ih]

theorem mget_mset_ne {α : Type} (m : List (String × α)) (k k' : String) (v : α)
    (h : k' ≠ k) : mget (mset m k v) k' = mget m k' := by
  have hk : k ≠ k' := Ne.symm h
  induction m with
  | nil => simp [mget, mset, hk]
  | cons hd tl ih =>
      obtain ⟨k₀, v₀⟩ := hd
      by_cases h₀ : k₀ = k
      · subst h₀
        simp [mget, mset, hk]
      · simp [mget, mset, h₀, ih]

theorem mget_mdel_self {α : Type} (m : List (String × α)) (k : String) :
    mget (mdel m k) k = none := by
  induction m with
  | nil => simp [mget, mdel]
  | cons hd tl ih =>
      obtain ⟨k₀, v₀⟩ := hd
      by_cases h₀ : k₀ = k
      · simp [mdel, h₀, ih]
      · simp [mdel, mget, h₀, ih]

theorem mget_mdel_ne {α : Type} (m : List (String × α)) (k k' : String)
    (h : k' ≠ k) : mget (mdel m k) k' = mget m k' := by
  have hk : k ≠ k' := Ne.symm h
  induction m with
  | nil => simp [mdel]
  | cons hd tl ih =>
      obtain ⟨k₀, v₀⟩ := hd
      by_cases h₀ : k₀ = k
      · subst h₀
        simp [mdel, mget, hk, ih]
      · simp [mdel, mget, h₀, ih]

/-- JavaScript truthiness of a possibly-absent string: `undefined` and `""` are falsy. -/
def jstruthy : Option String → Bool
  | none => false
  | some s => s != ""

/-- JavaScript `s || d` for a possibly-absent string `s` and a default `d`. -/
def jsOrDefault (s : Option String) (d : String) : String :=
  if jstruthy s then s.getD "" else d

/-- JavaScript string interpolation of a possibly-`undefined` value. -/
def jsShow : Option String → String
  | none => "undefined"
  | some s => s

theorem jstruthy_none : jstruthy none = false := rfl

theorem jstruthy_some_iff (s : String) : jstruthy (some s) = true ↔ s ≠ "" := by
  simp [jstruthy]

/-! ## OAuth data model (registeredClients / authorizationCodes / accessApiTokens maps) -/

/-- A dynamically registered OAuth client, as stored by `POST /oauth/register`. -/
structure RegisteredClient where
  client_id : String
  client_secret : String
  client_name : String
  redirect_uris : List String
  created_at : Nat
deriving Repr, DecidableEq

/-- An authorization code record, as stored by `GET /oauth/authorize`.
`client_id` is the (validated) query parameter; the PKCE fields and the
redirect URI are stored exactly as supplied (possibly absent). -/
structure AuthCodeEntry where
  client_id : String
  redirect_uri : Option String
  code_challenge : Option String
  code_challenge_method : Option String
  created_at : Nat
  expires_at : Nat
deriving Repr, DecidableEq

/-- An access-token record, as stored by the token endpoint. -/
structure AccessTokenEntry where
  client_id : String
  created_at : Nat
  expires_at : Nat
deriving Repr, DecidableEq

/-- A refresh-token record, as stored by the token endpoint. -/
structure RefreshTokenEntry where
  client_id : String
  created_at : Nat
deriving Repr, DecidableEq

/-- The four module-level `Map`s of the OAuth server. -/
structure OAuthState where
  registeredClients : List (String × RegisteredClient)
  authorizationCodes : List (String × AuthCodeEntry)
  accessTokens : List (String × AccessTokenEntry)
  refreshTokens : List (String × RefreshTokenEntry)
deriving Repr, DecidableEq

def OAuthState.empty : OAuthState := ⟨[], [], [], []⟩

/-! ## POST /oauth/register -/

/-- The default redirect-URI list substituted when the request carries none. -/
def defaultRedirectUris : List String := ["https://claude.ai/api/mcp/auth_callback"]

/-- The JSON body returned by `POST /oauth/register`. -/
structure RegisterResponse where
  client_id : String
  client_secret : String
  client_name : String
  redirect_uris : List String
deriving Repr, DecidableEq

/-- `POST /oauth/register`.  `freshClientId` and `freshClientSecret` stand for
the values produced by the crypto random source
(`client_` ++ 16 random bytes in hex, and 32 random bytes in hex).
`client_name` falls back to "Unknown Client" when absent or empty (JS `||`);
`redirect_uris` falls back to the default list only when the field is absent
or null — a present array, even an empty one, is truthy in JavaScript and is
kept as supplied. -/
def registerClient (st : OAuthState) (now : Nat)
    (freshClientId freshClientSecret : String)
    (client_name : Option String) (redirect_uris : Option (List String)) :
    OAuthState × RegisterResponse :=
  let name := jsOrDefault client_name "Unknown Client"
  let uris := match redirect_uris with
    | none => defaultRedirectUris
    | some l => l
  let client : RegisteredClient :=
    { client_id := freshClientId, client_secret := freshClientSecret,
      client_name := name, redirect_uris := uris, created_at := now }
  ({ st with registeredClients := mset st.registeredClients freshClientId client },
   { client_id := freshClientId, client_secret := freshClientSecret,
     client_name := name, redirect_uris := uris })

/-! ## GET /oauth/authorize -/

/-- Outcome of `GET /oauth/authorize`: a 400 "Invalid client_id" page, a 302
redirect carrying query parameters appended to the supplied location, or an
uncaught `new URL(...)` failure (the external URL constructor rejected the
supplied redirect URI, which Express surfaces as a 500 with no redirect). -/
inductive AuthorizeResult
  | invalidClient
  | redirect (location : String) (params : List (String × String))
  | urlFailure
deriving Repr, DecidableEq

/-- `GET /oauth/authorize`.  `freshCode` stands for the 32 random bytes (hex)
from the crypto source; `urlOk` models the external WHATWG URL constructor
(`urlOk uri = true` iff `new URL(uri)` succeeds).  The code record is stored
*before* the redirect URL is built, with a 10-minute expiry.  `state` is
appended only when truthy (JS `if (state)`). -/
def authorize (st : OAuthState) (now : Nat) (freshCode : String)
    (urlOk : String → Bool)
    (client_id redirect_uri state code_challenge code_challenge_method : Option String) :
    OAuthState × AuthorizeResult :=
  match mgetO st.registeredClients client_id with
  | none => (st, .invalidClient)
  | some _ =>
      let entry : AuthCodeEntry :=
        { client_id := client_id.getD "", redirect_uri := redirect_uri,
          code_challenge := code_challenge,
          code_challenge_method := code_challenge_method,
          created_at := now, expires_at := now + 600000 }
      let st' := { st with authorizationCodes := mset st.authorizationCodes freshCode entry }
      match redirect_uri with
      | none => (st', .urlFailure)
      | some uri =>
          if urlOk uri then
            (st', .redirect uri
              ([("code", freshCode)] ++
                if jstruthy state then [("state", state.getD "")] else []))
          else (st', .urlFailure)

/-! ## POST /oauth/token -/

/-- Outcome of `POST /oauth/token` (the JSON error code, or the token grant). -/
inductive TokenResult
  | invalidClient
  | invalidGrant
  | expiredToken
  | invalidRequest
  | unsupportedGrantType
  | tokens (access_token : String) (expires_in : Nat) (refresh_token : Option String)
deriving Repr, DecidableEq

/-- PKCE challenge recomputation: method `S256` applies the external
base64url∘SHA-256 digest (`hashS256` models
`crypto.createHash('sha256').update(v).digest('base64url')`); any other
method — including `plain` and absent — uses the verifier itself. -/
def computeChallenge (hashS256 : String → String) (method : Option String)
    (verifier : String) : String :=
  if method = some "S256" then hashS256 verifier else verifier

/-- The `authorization_code` branch of `POST /oauth/token`: look up the code
(absent → invalid_grant), check expiry (evicting on expiry), check the bound
client, check PKCE when the stored challenge is truthy, then atomically
consume the code and mint an access token (1-hour TTL) and a refresh token. -/
def exchangeAuthorizationCode (st : OAuthState) (now : Nat)
    (hashS256 : String → String) (freshAccessToken freshRefreshToken : String)
    (code client_id code_verifier : Option String) : OAuthState × TokenResult :=
  match code with
  | none => (st, .invalidGrant)
  | some c =>
      match mget st.authorizationCodes c with
      | none => (st, .invalidGrant)
      | some authCode =>
          if now > authCode.expires_at then
            ({ st with authorizationCodes := mdel st.authorizationCodes c }, .expiredToken)
          else if client_id ≠ some authCode.client_id then (st, .invalidGrant)
          else
            let accessEntry : AccessTokenEntry :=
              { client_id := client_id.getD "", created_at := now, expires_at := now + 3600000 }
            let refreshEntry : RefreshTokenEntry :=
              { client_id := client_id.getD "", created_at := now }
            let mint : OAuthState × TokenResult :=
              ({ st with
                  accessTokens := mset st.accessTokens freshAccessToken accessEntry,
                  refreshTokens := mset st.refreshTokens freshRefreshToken refreshEntry,
                  authorizationCodes := mdel st.authorizationCodes c },
               .tokens freshAccessToken 3600 (some freshRefreshToken))
            if jstruthy authCode.code_challenge then
              if !jstruthy code_verifier then (st, .invalidRequest)
              else
                let challenge := computeChallenge hashS256
                  authCode.code_challenge_method (code_verifier.getD "")
                if challenge ≠ authCode.code_challenge.getD "" then (st, .invalidGrant)
                else mint
            else mint

/-- The `refresh_token` branch of `POST /oauth/token`: look up the refresh
token, check the bound client, and mint a new access token only (the refresh
token is not rotated). -/
def refreshGrant (st : OAuthState) (now : Nat) (freshAccessToken : String)
    (refresh_token client_id : Option String) : OAuthState × TokenResult :=
  match mgetO st.refreshTokens refresh_token with
  | none => (st, .invalidGrant)
  | some tokenData =>
      if client_id ≠ some tokenData.client_id then (st, .invalidGrant)
      else
        let entry : AccessTokenEntry :=
          { client_id := client_id.getD "", created_at := now, expires_at := now + 3600000 }
        ({ st with accessTokens := mset st.accessTokens freshAccessToken entry },
         .tokens freshAccessToken 3600 none)

/-- Grant-type dispatch of `POST /oauth/token` (after client validation). -/
def grantDispatch (st : OAuthState) (now : Nat) (hashS256 : String → String)
    (freshAccessToken freshRefreshToken : String)
    (grant_type code refresh_token client_id code_verifier : Option String) :
    OAuthState × TokenResult :=
  if grant_type = some "authorization_code" then
    exchangeAuthorizationCode st now hashS256 freshAccessToken freshRefreshToken
      code client_id code_verifier
  else if grant_type = some "refresh_token" then
    refreshGrant st now freshAccessToken refresh_token client_id
  else (st, .unsupportedGrantType)

/-- `POST /oauth/token`.  The client secret is validated only when one is
presented (truthy): `if (client_secret) { ... }` — an absent or empty secret
skips validation entirely ("none" auth method for PKCE).  When presented, the
client must exist and its stored secret must equal the presented one, else
`invalid_client` (401) before any grant processing. -/
def tokenEndpoint (st : OAuthState) (now : Nat) (hashS256 : String → String)
    (freshAccessToken freshRefreshToken : String)
    (grant_type code refresh_token client_id client_secret code_verifier : Option String) :
    OAuthState × TokenResult :=
  if jstruthy client_secret then
    match mgetO st.registeredClients client_id with
    | none => (st, .invalidClient)
    | some client =>
        if client.client_secret ≠ client_secret.getD "" then (st, .invalidClient)
        else grantDispatch st now hashS256 freshAccessToken freshRefreshToken
          grant_type code refresh_token client_id code_verifier
  else grantDispatch st now hashS256 freshAccessToken freshRefreshToken
    grant_type code refresh_token client_id code_verifier

/-! ## MCP streamable-HTTP server: tool catalog, tool invocation, sessions -/

/-- One property of a tool's JSON-schema input description. -/
structure ToolProperty where
  name : String
  type : String
  description : String
deriving Repr, DecidableEq

/-- One entry of the static tool catalog. -/
structure ToolDef where
  name : String
  description : String
  properties : List ToolProperty
  required : List String
deriving Repr, DecidableEq

/-- The static `TOOLS_LIST` catalog. -/
def TOOLS_LIST : List ToolDef :=
  [ { name := "get_ticker",
      description := "Get ticker data for a specific instrument including price, volume, and funding rate",
      properties := [⟨"instrument_name", "string", "Instrument name (e.g., BTC-PERPETUAL, ETH-PERPETUAL)"⟩],
      required := ["instrument_name"] },
    { name := "get_instruments",
      description := "Get all available trading instruments on Deribit",
      properties := [⟨"currency", "string", "Currency symbol (BTC, ETH, USDC, USDT, EURR)"⟩,
                     ⟨"kind", "string", "Instrument kind (future, option, spot)"⟩],
      required := [] },
    { name := "get_orderbook",
      description := "Get order book data for an instrument",
      properties := [⟨"instrument_name", "string", "Instrument name"⟩,
                     ⟨"depth", "number", "Order book depth"⟩],
      required := ["instrument_name"] } ]

/-- The SDK `Server` object created by `createMCPServer`.  Its internal
mutable state (request bookkeeping inside the SDK) is opaque to the
dispatcher; it is modelled as an abstract list, empty on creation. -/
structure MCPServerInstance where
  name : String
  version : String
  handlerState : List String
deriving Repr, DecidableEq

def createMCPServer : MCPServerInstance :=
  { name := "deribit-mcp-server", version := "1.0.0", handlerState := [] }

/-- A session record: `{ mcpServer, connected: true }`. -/
structure Session where
  mcpServer : MCPServerInstance
  connected : Bool
deriving Repr, DecidableEq

/-- The session stored on creation or on re-`initialize`. -/
def freshSession : Session := { mcpServer := createMCPServer, connected := true }

/-- Outcome of the external Deribit fetch inside the tools/call handler:
the parsed response carried a `result` (already serialized by
`JSON.stringify(data.result, null, 2)`), carried an `error` object (whose
message is thrown), or the fetch/parse itself threw. -/
inductive FetchOutcome
  | ok (resultJson : String)
  | apiError (message : String)
  | failure (message : String)
deriving Repr, DecidableEq

/-- The `switch (name)` mapping a tool name to its Deribit endpoint. -/
def toolEndpoint : String → Option String
  | "get_ticker" => some "/public/ticker"
  | "get_instruments" => some "/public/get_instruments"
  | "get_orderbook" => some "/public/get_order_book"
  | _ => none

/-- One `{type, text}` content item of a tools/call result. -/
structure ContentItem where
  type : String
  text : String
deriving Repr, DecidableEq

/-- The shape returned by the CallTool handler: content plus the `isError`
flag (absent on success, which JavaScript reads as falsy). -/
structure CallToolResult where
  content : List ContentItem
  isError : Bool
deriving Repr, DecidableEq

/-- The catch-branch wrapping: `{content:[{type:'text', text:`Error: ...`}], isError:true}`. -/
def callToolErr (message : String) : CallToolResult :=
  { content := [⟨"text", "Error: " ++ message⟩], isError := true }

/-- `request.params` of a tools/call message. -/
structure ToolCallParams where
  name : Option String
  arguments : Option (List (String × String))
deriving Repr, DecidableEq

/-- The CallToolRequestSchema handler body: unknown tool names throw (caught
into an in-band error result), an upstream `error` reply throws likewise, a
fetch failure is caught likewise, and a success is wrapped as a single text
content item.  `fetchDeribit` models the external HTTP fetch, keyed by the
endpoint and the (stringified, non-null) arguments. -/
def callToolHandler (fetchDeribit : String → List (String × String) → FetchOutcome)
    (p : ToolCallParams) : CallToolResult :=
  match toolEndpoint (jsShow p.name) with
  | none => callToolErr ("Unknown tool: " ++ jsShow p.name)
  | some endpoint =>
      match fetchDeribit endpoint (p.arguments.getD []) with
      | .ok resultJson => { content := [⟨"text", resultJson⟩], isError := false }
      | .apiError message => callToolErr message
      | .failure message => callToolErr message

/-! ## The `/mcp` POST dispatcher -/

/-- JavaScript `String.prototype.startsWith`, as a character-prefix test
(the dispatcher only applies it to ASCII method names). -/
def jsStartsWith (s pre : String) : Bool :=
  pre.toList.isPrefixOf s.toList

/-- An inbound JSON-RPC message as read from `req.body`. -/
structure McpRequest where
  id : Option Int
  method : Option String
  params : Option ToolCallParams
deriving Repr, DecidableEq

/-- JavaScript truthiness of the `id` field (0 and absent are falsy). -/
def jstruthyId : Option Int → Bool
  | none => false
  | some n => n != 0

/-- The fixed result object answered to `initialize`. -/
structure InitializeResult where
  protocolVersion : String
  serverName : String
  serverVersion : String
deriving Repr, DecidableEq

def initializeResult : InitializeResult :=
  { protocolVersion := "2025-06-18", serverName := "deribit-mcp-server",
    serverVersion := "1.0.0" }

/-- The `result` payload of an outbound JSON-RPC response. -/
inductive RpcPayload
  | initRes (r : InitializeResult)
  | toolsRes (tools : List ToolDef)
  | callRes (r : CallToolResult)
  | emptyRes
deriving Repr, DecidableEq

/-- An outbound JSON-RPC object: a result or an error envelope. -/
inductive McpResponse
  | result (id : Option Int) (payload : RpcPayload)
  | rpcError (id : Option Int) (code : Int) (message : String)
deriving Repr, DecidableEq

/-- What the HTTP layer sends back for a POST to `/mcp`: a 200 with a JSON
body and the `Mcp-Session-Id` header, a 200 with no body at all, or the
catch branch's 500 carrying a `-32603` JSON-RPC error. -/
inductive McpOutcome
  | jsonBody (sessionHeader : String) (response : McpResponse)
  | noBody
  | internalError (id : Option Int) (message : String)
deriving Repr, DecidableEq

/-- The POST branch of `app.all('/mcp')`.  `sessionId` is the resolved id
(the `mcp-session-id` header, or fresh random hex when absent).  A session
is created when the id is unseen, and created afresh (replacing any prior
handler) whenever the message's method is `initialize`.  Dispatch follows
the source's if/else chain; a tools/call message whose `params` is absent
throws while destructuring (before the handler's try) and lands in the
outer catch as a 500 internal error. -/
def handleMcpPost (sessions : List (String × Session)) (sessionId : String)
    (fetchDeribit : String → List (String × String) → FetchOutcome)
    (request : McpRequest) : List (String × Session) × McpOutcome :=
  let isInitialize := request.method = some "initialize"
  let sessions' :=
    match mget sessions sessionId with
    | none => mset sessions sessionId freshSession
    | some _ =>
        if isInitialize then mset sessions sessionId freshSession else sessions
  if request.method = some "initialize" then
    (sessions', .jsonBody sessionId (.result request.id (.initRes initializeResult)))
  else if request.method = some "tools/list" then
    (sessions', .jsonBody sessionId (.result request.id (.toolsRes TOOLS_LIST)))
  else if request.method = some "tools/call" then
    match request.params with
    | none =>
        (sessions', .internalError request.id
          "Cannot destructure property 'name' of 'request.params' as it is undefined.")
    | some p =>
        (sessions', .jsonBody sessionId
          (.result request.id (.callRes (callToolHandler fetchDeribit p))))
  else if jstruthy request.method && jsStartsWith (request.method.getD "") "notifications/" then
    if !jstruthyId request.id then (sessions', .noBody)
    else (sessions', .jsonBody sessionId (.result request.id .emptyRes))
  else
    (sessions', .jsonBody sessionId
      (.rpcError request.id (-32601) ("Method not found: " ++ jsShow request.method)))

/-! ## Helper lemmas about the token endpoint -/

theorem tokenEndpoint_secret_falsy (st : OAuthState) (now : Nat)
    (hashS256 : String → String) (a r : String)
    (grant_type code refresh_token client_id client_secret code_verifier : Option String)
    (h : jstruthy client_secret = false) :
    tokenEndpoint st now hashS256 a r grant_type code refresh_token client_id
      client_secret code_verifier =
    grantDispatch st now hashS256 a r grant_type code refresh_token client_id
      code_verifier := by
  simp [tokenEndpoint, h]

theorem tokenEndpoint_secret_match (st : OAuthState) (now : Nat)
    (hashS256 : String → String) (a r : String)
    (grant_type code refresh_token client_id client_secret code_verifier : Option String)
    (client : RegisteredClient)
    (hc : mgetO st.registeredClients client_id = some client)
    (hs : client.client_secret = client_secret.getD "") :
    tokenEndpoint st now hashS256 a r grant_type code refresh_token client_id
      client_secret code_verifier =
    grantDispatch st now hashS256 a r grant_type code refresh_token client_id
      code_verifier := by
  by_cases htr : jstruthy client_secret
  · simp [tokenEndpoint, htr, hc, hs]
  · simp [tokenEndpoint, htr]

theorem grantDispatch_authorization_code (st : OAuthState) (now : Nat)
    (hashS256 : String → String) (a r : String)
    (code refresh_token client_id code_verifier : Option String) :
    grantDispatch st now hashS256 a r (some "authorization_code") code refresh_token
      client_id code_verifier =
    exchangeAuthorizationCode st now hashS256 a r code client_id code_verifier := by
  simp [grantDispatch]

/-- When every check passes, the `authorization_code` branch consumes the code
and mints the two tokens. -/
theorem exchange_success (st : OAuthState) (now : Nat)
    (hashS256 : String → String) (a r : String) (c : String) (ac : AuthCodeEntry)
    (verifier : Option String)
    (hc : mget st.authorizationCodes c = some ac)
    (hexp : now ≤ ac.expires_at)
    (hpkce : jstruthy ac.code_challenge = true →
      jstruthy verifier = true ∧
      computeChallenge hashS256 ac.code_challenge_method (verifier.getD "") =
        ac.code_challenge.getD "") :
    exchangeAuthorizationCode st now hashS256 a r (some c) (some ac.client_id) verifier =
      ({ st with
          accessTokens := mset st.accessTokens a
            ⟨ac.client_id, now, now + 3600000⟩,
          refreshTokens := mset st.refreshTokens r ⟨ac.client_id, now⟩,
          authorizationCodes := mdel st.authorizationCodes c },
       .tokens a 3600 (some r)) := by
  have h1 : ¬ now > ac.expires_at := by omega
  by_cases hch : jstruthy ac.code_challenge
  · obtain ⟨hv, heq⟩ := hpkce hch
    simp [exchangeAuthorizationCode, hc, h1, hch, hv, heq]
  · simp [exchangeAuthorizationCode, hc, h1, hch]

/-- A code absent from the ledger yields `invalid_grant` without state change. -/
theorem exchange_absent (st : OAuthState) (now : Nat)
    (hashS256 : String → String) (a r : String) (c : String)
    (client_id verifier : Option String)
    (hc : mget st.authorizationCodes c = none) :
    exchangeAuthorizationCode st now hashS256 a r (some c) client_id verifier =
      (st, .invalidGrant) := by
  simp [exchangeAuthorizationCode, hc]

/-- Full token-endpoint behaviour when every check on the stored code passes. -/
theorem tokenEndpoint_exchange_success (st : OAuthState) (now : Nat)
    (hashS256 : String → String) (a r c : String) (ac : AuthCodeEntry) (cid : String)
    (secret verifier : Option String) (client : RegisteredClient)
    (hac : ac.client_id = cid)
    (hclient : mget st.registeredClients cid = some client)
    (hsecret : jstruthy secret = true → client.client_secret = secret.getD "")
    (hc : mget st.authorizationCodes c = some ac)
    (hexp : now ≤ ac.expires_at)
    (hpkce : jstruthy ac.code_challenge = true →
      jstruthy verifier = true ∧
      computeChallenge hashS256 ac.code_challenge_method (verifier.getD "") =
        ac.code_challenge.getD "") :
    tokenEndpoint st now hashS256 a r (some "authorization_code") (some c) none
      (some cid) secret verifier =
      ({ st with
          accessTokens := mset st.accessTokens a ⟨cid, now, now + 3600000⟩,
          refreshTokens := mset st.refreshTokens r ⟨cid, now⟩,
          authorizationCodes := mdel st.authorizationCodes c },
       .tokens a 3600 (some r)) := by
  by_cases htr : jstruthy secret
  · rw [tokenEndpoint_secret_match _ _ _ _ _ _ _ _ _ _ _ client
        (show mgetO st.registeredClients (some cid) = some client from hclient)
        (hsecret htr), grantDispatch_authorization_code]
    subst hac
    exact exchange_success st now hashS256 a r c ac verifier hc hexp hpkce
  · rw [tokenEndpoint_secret_falsy _ _ _ _ _ _ _ _ _ _ _ (by simpa using htr),
      grantDispatch_authorization_code]
    subst hac
    exact exchange_success st now hashS256 a r c ac verifier hc hexp hpkce

/-- Full token-endpoint behaviour when the presented code is not in the ledger. -/
theorem tokenEndpoint_code_absent (st : OAuthState) (now : Nat)
    (hashS256 : String → String) (a r c : String)
    (cidO secret verifier : Option String)
    (hsec : jstruthy secret = true → ∃ client,
      mgetO st.registeredClients cidO = some client ∧
      client.client_secret = secret.getD "")
    (hc : mget st.authorizationCodes c = none) :
    tokenEndpoint st now hashS256 a r (some "authorization_code") (some c) none
      cidO secret verifier = (st, .invalidGrant) := by
  by_cases htr : jstruthy secret
  · obtain ⟨client, hcl, hs⟩ := hsec htr
    rw [tokenEndpoint_secret_match _ _ _ _ _ _ _ _ _ _ _ client hcl hs,
      grantDispatch_authorization_code]
    exact exchange_absent _ _ _ _ _ _ _ _ hc
  · rw [tokenEndpoint_secret_falsy _ _ _ _ _ _ _ _ _ _ _ (by simpa using htr),
      grantDispatch_authorization_code]
    exact exchange_absent _ _ _ _ _ _ _ _ hc

/-- C1: for a registered client, `authorize` immediately followed by
`exchange_code` with the matching (or absent) PKCE verifier succeeds exactly
once: the first exchange returns fresh access and refresh tokens, the
authorization code is removed from the ledger in the same step, and a second
exchange presenting the same code fails with `invalid_grant`. -/
theorem authorization_code_single_use
    (st : OAuthState) (now now₁ now₂ : Nat) (urlOk : String → Bool)
    (hashS256 : String → String)
    (cid uri freshCode a₁ r₁ a₂ r₂ : String) (client : RegisteredClient)
    (state ch chm secret verifier verifier₂ : Option String)
    (hclient : mget st.registeredClients cid = some client)
    (hsecret : jstruthy secret = true → client.client_secret = secret.getD "")
    (himm : now₁ ≤ now + 600000)
    (hpkce : jstruthy ch = true →
      jstruthy verifier = true ∧
      computeChallenge hashS256 chm (verifier.getD "") = ch.getD "") :
    (tokenEndpoint (authorize st now freshCode urlOk (some cid) (some uri) state ch chm).1
        now₁ hashS256 a₁ r₁ (some "authorization_code") (some freshCode) none
        (some cid) secret verifier).2 = .tokens a₁ 3600 (some r₁) ∧
    mget (tokenEndpoint (authorize st now freshCode urlOk (some cid) (some uri) state ch chm).1
        now₁ hashS256 a₁ r₁ (some "authorization_code") (some freshCode) none
        (some cid) secret verifier).1.authorizationCodes freshCode = none ∧
    (tokenEndpoint (tokenEndpoint (authorize st now freshCode urlOk (some cid) (some uri) state ch chm).1
        now₁ hashS256 a₁ r₁ (some "authorization_code") (some freshCode) none
        (some cid) secret verifier).1
        now₂ hashS256 a₂ r₂ (some "authorization_code") (some freshCode) none
        (some cid) secret verifier₂).2 = .invalidGrant := by
  have hst₁ : (authorize st now freshCode urlOk (some cid) (some uri) state ch chm).1 =
      { st with authorizationCodes := (mset st.authorizationCodes freshCode
          ⟨cid, some uri, ch, chm, now, now + 600000⟩) } := by
    by_cases hu : urlOk uri = true
    · simp [authorize, mgetO, hclient, hu]
    · simp [authorize, mgetO, hclient, hu]
  rw [hst₁]
  have hexch := tokenEndpoint_exchange_success
    { st with authorizationCodes := (mset st.authorizationCodes freshCode
        ⟨cid, some uri, ch, chm, now, now + 600000⟩) }
    now₁ hashS256 a₁ r₁ freshCode ⟨cid, some uri, ch, chm, now, now + 600000⟩ cid
    secret verifier client rfl hclient hsecret (mget_mset_self _ _ _) himm hpkce
  rw [hexch]
  refine ⟨rfl, mget_mdel_self _ _, ?_⟩
  have habsent := tokenEndpoint_code_absent
    { st with
        accessTokens := mset st.accessTokens a₁ ⟨cid, now₁, now₁ + 3600000⟩,
        refreshTokens := mset st.refreshTokens r₁ ⟨cid, now₁⟩,
        authorizationCodes := (mdel (mset st.authorizationCodes freshCode
          ⟨cid, some uri, ch, chm, now, now + 600000⟩) freshCode) }
    now₂ hashS256 a₂ r₂ freshCode (some cid) secret verifier₂
    (fun htr => ⟨client, hclient, hsecret htr⟩) (mget_mdel_self _ _)
  rw [habsent]

/-- Closed instance of `authorization_code_single_use` on a concrete state:
a registered client with an S256 PKCE challenge exchanges its code once and
the replayed exchange is rejected. -/
theorem authorization_code_single_use_witness :
    (tokenEndpoint (authorize
        { OAuthState.empty with registeredClients :=
            [("client_a", ⟨"client_a", "secret_a", "A", ["https://claude.ai/cb"], 0⟩)] }
        5 "code1" (fun _ => true) (some "client_a") (some "https://claude.ai/cb")
        (some "xyz") (some "ver#") (some "S256")).1
        6 (fun s => s ++ "#") "at1" "rt1" (some "authorization_code") (some "code1") none
        (some "client_a") none (some "ver")).2 = .tokens "at1" 3600 (some "rt1") ∧
    mget (tokenEndpoint (authorize
        { OAuthState.empty with registeredClients :=
            [("client_a", ⟨"client_a", "secret_a", "A", ["https://claude.ai/cb"], 0⟩)] }
        5 "code1" (fun _ => true) (some "client_a") (some "https://claude.ai/cb")
        (some "xyz") (some "ver#") (some "S256")).1
        6 (fun s => s ++ "#") "at1" "rt1" (some "authorization_code") (some "code1") none
        (some "client_a") none (some "ver")).1.authorizationCodes "code1" = none ∧
    (tokenEndpoint (tokenEndpoint (authorize
        { OAuthState.empty with registeredClients :=
            [("client_a", ⟨"client_a", "secret_a", "A", ["https://claude.ai/cb"], 0⟩)] }
        5 "code1" (fun _ => true) (some "client_a") (some "https://claude.ai/cb")
        (some "xyz") (some "ver#") (some "S256")).1
        6 (fun s => s ++ "#") "at1" "rt1" (some "authorization_code") (some "code1") none
        (some "client_a") none (some "ver")).1
        7 (fun s => s ++ "#") "at2" "rt2" (some "authorization_code") (some "code1") none
        (some "client_a") none (some "ver")).2 = .invalidGrant :=
  authorization_code_single_use _ 5 6 7 _ _ "client_a" "https://claude.ai/cb" "code1"
    "at1" "rt1" "at2" "rt2" ⟨"client_a", "secret_a", "A", ["https://claude.ai/cb"], 0⟩
    (some "xyz") (some "ver#") (some "S256") none (some "ver") (some "ver")
    (by decide) (by decide) (by omega) (by decide)

/-- When the client-secret gate passes (by absence or by match), the token
endpoint's `authorization_code` branch is exactly the code exchange. -/
theorem tokenEndpoint_to_exchange (st : OAuthState) (now : Nat)
    (hashS256 : String → String) (a r : String)
    (code refresh_token cidO secret verifier : Option String)
    (hsec : jstruthy secret = true → ∃ client,
      mgetO st.registeredClients cidO = some client ∧
      client.client_secret = secret.getD "") :
    tokenEndpoint st now hashS256 a r (some "authorization_code") code refresh_token
      cidO secret verifier =
    exchangeAuthorizationCode st now hashS256 a r code cidO verifier := by
  by_cases htr : jstruthy secret
  · obtain ⟨client, hcl, hs⟩ := hsec htr
    rw [tokenEndpoint_secret_match _ _ _ _ _ _ _ _ _ _ _ client hcl hs,
      grantDispatch_authorization_code]
  · rw [tokenEndpoint_secret_falsy _ _ _ _ _ _ _ _ _ _ _ (by simpa using htr),
      grantDispatch_authorization_code]

/-- C2: when the stored code carries a PKCE challenge, the exchange demands a
verifier (absent → `invalid_request`), recomputes the challenge from it
(`S256` → the external base64url∘SHA-256 digest, `plain` → the verifier
itself), rejects a mismatch with `invalid_grant`, and accepts the correct
verifier. -/
theorem pkce_enforced_on_exchange (st : OAuthState) (now : Nat)
    (hashS256 : String → String) (a r : String) (c : String) (ac : AuthCodeEntry)
    (secret verifier : Option String)
    (hc : mget st.authorizationCodes c = some ac)
    (hch : jstruthy ac.code_challenge = true)
    (hexp : now ≤ ac.expires_at)
    (hsec : jstruthy secret = true → ∃ client,
      mget st.registeredClients ac.client_id = some client ∧
      client.client_secret = secret.getD "") :
    (jstruthy verifier = false →
      (tokenEndpoint st now hashS256 a r (some "authorization_code") (some c) none
        (some ac.client_id) secret verifier).2 = .invalidRequest) ∧
    (jstruthy verifier = true →
      computeChallenge hashS256 ac.code_challenge_method (verifier.getD "") ≠
        ac.code_challenge.getD "" →
      (tokenEndpoint st now hashS256 a r (some "authorization_code") (some c) none
        (some ac.client_id) secret verifier).2 = .invalidGrant) ∧
    (jstruthy verifier = true →
      computeChallenge hashS256 ac.code_challenge_method (verifier.getD "") =
        ac.code_challenge.getD "" →
      (tokenEndpoint st now hashS256 a r (some "authorization_code") (some c) none
        (some ac.client_id) secret verifier).2 = .tokens a 3600 (some r)) ∧
    (∀ v, computeChallenge hashS256 (some "S256") v = hashS256 v) ∧
    (∀ v, computeChallenge hashS256 (some "plain") v = v) := by
  have hstep := tokenEndpoint_to_exchange st now hashS256 a r (some c) none
    (some ac.client_id) secret verifier hsec
  have hgt : ¬ now > ac.expires_at := by omega
  refine ⟨?_, ?_, ?_, ?_, ?_⟩
  · intro hv
    rw [hstep]
    simp [exchangeAuthorizationCode, hc, hgt, hch, hv]
  · intro hv hne
    rw [hstep]
    simp [exchangeAuthorizationCode, hc, hgt, hch, hv, hne]
  · intro hv heq
    rw [hstep]
    simp [exchangeAuthorizationCode, hc, hgt, hch, hv, heq]
  · intro v
    simp [computeChallenge]
  · intro v
    simp [computeChallenge]

/-- Closed instance of `pkce_enforced_on_exchange`: with an S256 challenge
stored, the matching verifier is accepted. -/
theorem pkce_enforced_on_exchange_witness :
    (tokenEndpoint
        { OAuthState.empty with authorizationCodes :=
            [("code1", ⟨"client_a", some "https://claude.ai/cb", some "ver#",
              some "S256", 0, 600000⟩)] }
        1 (fun s => s ++ "#") "at1" "rt1" (some "authorization_code") (some "code1")
        none (some "client_a") none (some "ver")).2 = .tokens "at1" 3600 (some "rt1") :=
  (pkce_enforced_on_exchange
      { OAuthState.empty with authorizationCodes :=
          [("code1", ⟨"client_a", some "https://claude.ai/cb", some "ver#",
            some "S256", 0, 600000⟩)] }
      1 (fun s => s ++ "#") "at1" "rt1" "code1"
      ⟨"client_a", some "https://claude.ai/cb", some "ver#", some "S256", 0, 600000⟩
      none (some "ver") (by decide) (by decide) (by decide)
      (fun htr => absurd htr (by decide))).2.2.1 (by decide) (by decide)

/-- A registered client (with a non-empty stored secret) and a pending,
unexpired authorization code bound to it, with no PKCE challenge. -/
def exchangeNoSecretState : OAuthState :=
  { registeredClients :=
      [("client_a", ⟨"client_a", "secret_a", "A", ["https://claude.ai/cb"], 0⟩)],
    authorizationCodes :=
      [("code1", ⟨"client_a", some "https://claude.ai/cb", none, none, 0, 600000⟩)],
    accessTokens := [], refreshTokens := [] }

/-- C3 counterexample: the registered client's stored secret is non-empty,
yet an exchange presenting *no* client_secret is not rejected with
`invalid_client` — it succeeds, because the code validates the secret only
when one is presented (`if (client_secret) { ... }`). -/
theorem absent_client_secret_bypasses_validation :
    (tokenEndpoint exchangeNoSecretState 1 (fun s => s) "at1" "rt1"
        (some "authorization_code") (some "code1") none (some "client_a")
        none none).2 = .tokens "at1" 3600 (some "rt1") ∧
    (tokenEndpoint exchangeNoSecretState 1 (fun s => s) "at1" "rt1"
        (some "authorization_code") (some "code1") none (some "client_a")
        none none).2 ≠ .invalidClient := by
  constructor
  · decide
  · decide

/-- C3 amended: whenever a client_secret *is* presented (truthy), it is
validated exactly against the registered client's stored secret — an unknown
client_id or a mismatch fails with `invalid_client` before any grant
processing, leaving the state unchanged, for every grant type. -/
theorem presented_client_secret_validated_exactly (st : OAuthState) (now : Nat)
    (hashS256 : String → String) (a r : String)
    (grant_type code refresh_token cidO secret verifier : Option String)
    (htr : jstruthy secret = true)
    (hbad : ∀ client, mgetO st.registeredClients cidO = some client →
      client.client_secret ≠ secret.getD "") :
    tokenEndpoint st now hashS256 a r grant_type code refresh_token cidO secret
      verifier = (st, .invalidClient) := by
  rcases hm : mgetO st.registeredClients cidO with _ | client
  · simp [tokenEndpoint, htr, hm]
  · simp [tokenEndpoint, htr, hm, hbad client hm]

/-- Closed instance of `presented_client_secret_validated_exactly`: a wrong
presented secret is rejected with `invalid_client` and no state change. -/
theorem presented_client_secret_validated_exactly_witness :
    tokenEndpoint exchangeNoSecretState 1 (fun s => s) "at1" "rt1"
      (some "authorization_code") (some "code1") none (some "client_a")
      (some "wrong") none = (exchangeNoSecretState, .invalidClient) :=
  presented_client_secret_validated_exactly exchangeNoSecretState 1 (fun s => s)
    "at1" "rt1" (some "authorization_code") (some "code1") none (some "client_a")
    (some "wrong") none (by decide)
    (fun client hcl => by
      have h2 : some (⟨"client_a", "secret_a", "A", ["https://claude.ai/cb"], 0⟩ :
          RegisteredClient) = some client := hcl
      injection h2 with h3
      rw [← h3]
      decide)

/-- A pending authorization code bound to `client_a` that expired at time 5. -/
def expiredCodeState : OAuthState :=
  { registeredClients := [],
    authorizationCodes :=
      [("code1", ⟨"client_a", some "https://claude.ai/cb", none, none, 0, 5⟩)],
    accessTokens := [], refreshTokens := [] }

/-- C5 counterexample: an expired code presented by the *wrong* client is
rejected with `expired_token`, not `invalid_grant` — the expiry check runs
before the client-binding check, contradicting the claimed order. -/
theorem expiry_checked_before_binding :
    (tokenEndpoint expiredCodeState 10 (fun s => s) "at1" "rt1"
        (some "authorization_code") (some "code1") none (some "client_b")
        none none).2 = .expiredToken ∧
    (tokenEndpoint expiredCodeState 10 (fun s => s) "at1" "rt1"
        (some "authorization_code") (some "code1") none (some "client_b")
        none none).2 ≠ .invalidGrant := by
  constructor
  · decide
  · decide

/-- C5 amended: with no client_secret presented, the exchange checks run in
the source's order — lookup, then expiry, then client binding: an absent code
fails with `invalid_grant`; an expired code fails with `expired_token` and is
evicted (even when the binding also mismatches), after which the same code is
no longer exchangeable; a present, unexpired code bound to a different client
fails with `invalid_grant`. -/
theorem exchange_checks_lookup_expiry_binding (st : OAuthState) (now now₂ : Nat)
    (hashS256 : String → String) (a r a₂ r₂ : String) (c : String)
    (cid cid₂ verifier verifier₂ : Option String) :
    (mget st.authorizationCodes c = none →
      tokenEndpoint st now hashS256 a r (some "authorization_code") (some c) none
        cid none verifier = (st, .invalidGrant)) ∧
    (∀ ac, mget st.authorizationCodes c = some ac → now > ac.expires_at →
      tokenEndpoint st now hashS256 a r (some "authorization_code") (some c) none
        cid none verifier =
        ({ st with authorizationCodes := mdel st.authorizationCodes c }, .expiredToken) ∧
      (tokenEndpoint { st with authorizationCodes := mdel st.authorizationCodes c }
          now₂ hashS256 a₂ r₂ (some "authorization_code") (some c) none
          cid₂ none verifier₂).2 = .invalidGrant) ∧
    (∀ ac, mget st.authorizationCodes c = some ac → ¬ now > ac.expires_at →
      cid ≠ some ac.client_id →
      tokenEndpoint st now hashS256 a r (some "authorization_code") (some c) none
        cid none verifier = (st, .invalidGrant)) := by
  have hskip : jstruthy (none : Option String) = false := rfl
  refine ⟨?_, ?_, ?_⟩
  · intro hc
    rw [tokenEndpoint_to_exchange _ _ _ _ _ _ _ _ _ _
      (fun htr => absurd htr (by decide))]
    exact exchange_absent _ _ _ _ _ _ _ _ hc
  · intro ac hc hexp
    constructor
    · rw [tokenEndpoint_to_exchange _ _ _ _ _ _ _ _ _ _
        (fun htr => absurd htr (by decide))]
      simp [exchangeAuthorizationCode, hc, hexp]
    · have habsent := tokenEndpoint_code_absent
        { st with authorizationCodes := mdel st.authorizationCodes c }
        now₂ hashS256 a₂ r₂ c cid₂ none verifier₂
        (fun htr => absurd htr (by decide)) (mget_mdel_self _ _)
      rw [habsent]
  · intro ac hc hexp hbind
    rw [tokenEndpoint_to_exchange _ _ _ _ _ _ _ _ _ _
      (fun htr => absurd htr (by decide))]
    simp [exchangeAuthorizationCode, hc, hexp, hbind]

/-- Closed instance of `exchange_checks_lookup_expiry_binding` on the expired
code: eviction with `expired_token`, then `invalid_grant` on replay. -/
theorem exchange_checks_lookup_expiry_binding_witness :
    tokenEndpoint expiredCodeState 10 (fun s => s) "at1" "rt1"
      (some "authorization_code") (some "code1") none (some "client_b")
      none none =
      ({ expiredCodeState with authorizationCodes := [] }, .expiredToken) ∧
    (tokenEndpoint { expiredCodeState with authorizationCodes := [] }
        7 (fun s => s) "at2" "rt2" (some "authorization_code") (some "code1") none
        (some "client_c") none none).2 = .invalidGrant :=
  (exchange_checks_lookup_expiry_binding expiredCodeState 10 7 (fun s => s)
      "at1" "rt1" "at2" "rt2" "code1" (some "client_b") (some "client_c")
      none none).2.1
    ⟨"client_a", some "https://claude.ai/cb", none, none, 0, 5⟩ (by decide) (by decide)

/-- A state holding one registered client `client_a`. -/
def registeredClientState : OAuthState :=
  { OAuthState.empty with registeredClients :=
      [("client_a", ⟨"client_a", "secret_a", "A", defaultRedirectUris, 0⟩)] }

/-- C4 counterexample: a supplied-but-empty `state` query parameter is falsy
in JavaScript (`if (state)`), so the redirect carries no `state` parameter
even though one was supplied. -/
theorem empty_state_not_appended :
    (authorize registeredClientState 0 "code1" (fun _ => true) (some "client_a")
        (some "https://claude.ai/cb") (some "") none none).2 =
      .redirect "https://claude.ai/cb" [("code", "code1")] ∧
    (authorize registeredClientState 0 "code1" (fun _ => true) (some "client_a")
        (some "https://claude.ai/cb") (some "") none none).2 ≠
      .redirect "https://claude.ai/cb" [("code", "code1"), ("state", "")] := by
  constructor
  · decide
  · decide

/-- C4 amended: an unregistered client_id fails with `invalid_client` and
performs no redirect (state unchanged); a registered client_id stores a fresh
code bound to the supplied PKCE challenge/method with a 10-minute expiry and
redirects to the supplied URI (when the external URL constructor accepts it)
with `code` and — when a non-empty `state` was supplied — `state` appended. -/
theorem authorize_validates_then_redirects (st : OAuthState) (now : Nat)
    (freshCode : String) (urlOk : String → Bool)
    (client_id redirect_uri state ch chm : Option String) :
    (mgetO st.registeredClients client_id = none →
      authorize st now freshCode urlOk client_id redirect_uri state ch chm =
        (st, .invalidClient)) ∧
    (∀ cid client uri, client_id = some cid →
      mget st.registeredClients cid = some client →
      redirect_uri = some uri → urlOk uri = true →
      authorize st now freshCode urlOk client_id redirect_uri state ch chm =
        ({ st with authorizationCodes := (mset st.authorizationCodes freshCode
            ⟨cid, some uri, ch, chm, now, now + 600000⟩) },
         .redirect uri ([("code", freshCode)] ++
            if jstruthy state then [("state", state.getD "")] else []))) := by
  constructor
  · intro h
    simp [authorize, h]
  · intro cid client uri hcid hcl hred hurl
    subst hcid
    subst hred
    simp [authorize, mgetO, hcl, hurl]

/-- Closed instance of `authorize_validates_then_redirects`: a registered
client with a non-empty state obtains the code-bearing redirect. -/
theorem authorize_validates_then_redirects_witness :
    authorize registeredClientState 0 "code1" (fun _ => true) (some "client_a")
      (some "https://claude.ai/cb") (some "xyz") none none =
      ({ registeredClientState with authorizationCodes :=
          [("code1", ⟨"client_a", some "https://claude.ai/cb", none, none, 0, 600000⟩)] },
       .redirect "https://claude.ai/cb" [("code", "code1"), ("state", "xyz")]) :=
  (authorize_validates_then_redirects registeredClientState 0 "code1" (fun _ => true)
      (some "client_a") (some "https://claude.ai/cb") (some "xyz") none none).2
    "client_a" ⟨"client_a", "secret_a", "A", defaultRedirectUris, 0⟩
    "https://claude.ai/cb" rfl (by decide) rfl rfl

/-- C6 counterexample: an explicitly supplied *empty* redirect-URI list is a
truthy JavaScript array, so `redirect_uris || default` keeps it — the default
list is not substituted. -/
theorem empty_redirect_uris_kept :
    ((registerClient OAuthState.empty 0 "client_x" "sec_x" (some "App")
        (some [])).2).redirect_uris = [] ∧
    ((registerClient OAuthState.empty 0 "client_x" "sec_x" (some "App")
        (some [])).2).redirect_uris ≠ defaultRedirectUris := by
  constructor
  · decide
  · decide

/-- C6 amended: `register` always succeeds, echoes the generated credentials,
stores the client under the generated id without touching other clients, and
substitutes the configured default redirect-URI list exactly when the field
is absent (null/undefined); a supplied list — empty included — is kept. -/
theorem register_always_succeeds (st : OAuthState) (now : Nat)
    (freshClientId freshClientSecret : String) (name : Option String)
    (uris : Option (List String)) :
    (registerClient st now freshClientId freshClientSecret name uris).2 =
      { client_id := freshClientId, client_secret := freshClientSecret,
        client_name := jsOrDefault name "Unknown Client",
        redirect_uris := uris.getD defaultRedirectUris } ∧
    mget (registerClient st now freshClientId freshClientSecret name
        uris).1.registeredClients freshClientId =
      some { client_id := freshClientId, client_secret := freshClientSecret,
             client_name := jsOrDefault name "Unknown Client",
             redirect_uris := uris.getD defaultRedirectUris, created_at := now } ∧
    (∀ k, k ≠ freshClientId →
      mget (registerClient st now freshClientId freshClientSecret name
        uris).1.registeredClients k = mget st.registeredClients k) := by
  refine ⟨?_, ?_, ?_⟩
  · cases uris <;> simp [registerClient]
  · cases uris <;> simp [registerClient, mget_mset_self]
  · intro k hk
    cases uris <;> simp [registerClient, mget_mset_ne _ _ _ _ hk]

/-- Closed instance of `register_always_succeeds`: registration with the
field absent stores the default list and leaves other keys unbound. -/
theorem register_always_succeeds_witness :
    (registerClient OAuthState.empty 0 "client_x" "sec_x" none none).2 =
      { client_id := "client_x", client_secret := "sec_x",
        client_name := "Unknown Client", redirect_uris := defaultRedirectUris } ∧
    mget (registerClient OAuthState.empty 0 "client_x" "sec_x" none
        none).1.registeredClients "other" = none :=
  ⟨(register_always_succeeds OAuthState.empty 0 "client_x" "sec_x" none none).1,
   (register_always_succeeds OAuthState.empty 0 "client_x" "sec_x" none none).2.2
     "other" (by decide)⟩

/-- C7: an `initialize` message (re-)creates the session for its id — for any
prior session table, including one where the id is bound to a handler with
arbitrary accumulated state, the table afterwards binds the id to the fresh
session — and any two `initialize` messages yield the same fixed
`initialize` result payload. -/
theorem initialize_recreates_session (sessions₁ sessions₂ : List (String × Session))
    (sid : String) (f₁ f₂ : String → List (String × String) → FetchOutcome)
    (req₁ req₂ : McpRequest)
    (h₁ : req₁.method = some "initialize") (h₂ : req₂.method = some "initialize") :
    handleMcpPost sessions₁ sid f₁ req₁ =
      (mset sessions₁ sid freshSession,
       .jsonBody sid (.result req₁.id (.initRes initializeResult))) ∧
    handleMcpPost sessions₂ sid f₂ req₂ =
      (mset sessions₂ sid freshSession,
       .jsonBody sid (.result req₂.id (.initRes initializeResult))) ∧
    mget (mset sessions₁ sid freshSession) sid = some freshSession := by
  have key : ∀ (ss : List (String × Session))
      (f : String → List (String × String) → FetchOutcome) (req : McpRequest),
      req.method = some "initialize" →
      handleMcpPost ss sid f req =
        (mset ss sid freshSession,
         .jsonBody sid (.result req.id (.initRes initializeResult))) := by
    intro ss f req h
    rcases hm : mget ss sid with _ | s <;> simp [handleMcpPost, h, hm]
  exact ⟨key _ _ _ h₁, key _ _ _ h₂, mget_mset_self _ _ _⟩

/-- Closed instance of `initialize_recreates_session`: re-initializing an id
bound to a handler with accumulated state replaces it with the fresh session
and returns the identical result payload. -/
theorem initialize_recreates_session_witness :
    handleMcpPost [] "s1" (fun _ _ => .ok "r") ⟨some 1, some "initialize", none⟩ =
      ([("s1", freshSession)],
       .jsonBody "s1" (.result (some 1) (.initRes initializeResult))) ∧
    handleMcpPost [("s1", ⟨⟨"x", "y", ["junk"]⟩, false⟩)] "s1" (fun _ _ => .ok "r")
        ⟨some 2, some "initialize", none⟩ =
      ([("s1", freshSession)],
       .jsonBody "s1" (.result (some 2) (.initRes initializeResult))) ∧
    mget [("s1", freshSession)] "s1" = some freshSession :=
  initialize_recreates_session [] [("s1", ⟨⟨"x", "y", ["junk"]⟩, false⟩)] "s1"
    (fun _ _ => .ok "r") (fun _ _ => .ok "r")
    ⟨some 1, some "initialize", none⟩ ⟨some 2, some "initialize", none⟩ rfl rfl

theorem ne_of_jsStartsWith (m x p : String)
    (h : jsStartsWith m p = true) (hx : jsStartsWith x p = false) : m ≠ x := by
  intro e
  rw [e, hx] at h
  exact absurd h Bool.false_ne_true

/-- C8: a message whose method is any `notifications/*` and which carries no
`id` draws no response body at all — not even an empty JSON-RPC object. -/
theorem notifications_without_id_draw_no_body (sessions : List (String × Session))
    (sid : String) (f : String → List (String × String) → FetchOutcome)
    (req : McpRequest) (m : String)
    (hm : req.method = some m)
    (hsw : jsStartsWith m "notifications/" = true)
    (hid : req.id = none) :
    (handleMcpPost sessions sid f req).2 = .noBody := by
  have h1 : m ≠ "initialize" := ne_of_jsStartsWith m _ _ hsw (by decide)
  have h2 : m ≠ "tools/list" := ne_of_jsStartsWith m _ _ hsw (by decide)
  have h3 : m ≠ "tools/call" := ne_of_jsStartsWith m _ _ hsw (by decide)
  have h4 : m ≠ "" := ne_of_jsStartsWith m _ _ hsw (by decide)
  rcases hses : mget sessions sid with _ | s <;>
    simp [handleMcpPost, hm, hid, hsw, h1, h2, h3, h4, jstruthy, jstruthyId, hses]

/-- Closed instance of `notifications_without_id_draw_no_body` at
`notifications/progress`. -/
theorem notifications_without_id_draw_no_body_witness :
    (handleMcpPost [] "s1" (fun _ _ => .ok "r")
        ⟨none, some "notifications/progress", none⟩).2 = .noBody :=
  notifications_without_id_draw_no_body [] "s1" (fun _ _ => .ok "r")
    ⟨none, some "notifications/progress", none⟩ "notifications/progress"
    rfl (by decide) rfl

/-- C9: a `tools/call` dispatch always answers with a well-formed JSON-RPC
*result* response wrapping the handler's output; every failure of the
invoked tool — unknown name, upstream error reply, or thrown fetch failure —
is delivered in-band as `{content:[{type:"text", text:"Error: ..."}],
isError:true}`, and a success as the same shape with the serialized result
and no error flag. -/
theorem tool_failures_stay_in_band (sessions : List (String × Session))
    (sid : String) (f : String → List (String × String) → FetchOutcome)
    (req : McpRequest) (p : ToolCallParams)
    (hm : req.method = some "tools/call") (hp : req.params = some p) :
    (handleMcpPost sessions sid f req).2 =
      .jsonBody sid (.result req.id (.callRes (callToolHandler f p))) ∧
    (toolEndpoint (jsShow p.name) = none →
      callToolHandler f p =
        ⟨[⟨"text", "Error: " ++ ("Unknown tool: " ++ jsShow p.name)⟩], true⟩) ∧
    (∀ e msg, toolEndpoint (jsShow p.name) = some e →
      f e (p.arguments.getD []) = .apiError msg →
      callToolHandler f p = ⟨[⟨"text", "Error: " ++ msg⟩], true⟩) ∧
    (∀ e msg, toolEndpoint (jsShow p.name) = some e →
      f e (p.arguments.getD []) = .failure msg →
      callToolHandler f p = ⟨[⟨"text", "Error: " ++ msg⟩], true⟩) ∧
    (∀ e res, toolEndpoint (jsShow p.name) = some e →
      f e (p.arguments.getD []) = .ok res →
      callToolHandler f p = ⟨[⟨"text", res⟩], false⟩) := by
  refine ⟨?_, ?_, ?_, ?_, ?_⟩
  · rcases hses : mget sessions sid with _ | s <;>
      simp [handleMcpPost, hm, hp, hses]
  · intro hnone
    simp [callToolHandler, callToolErr, hnone]
  · intro e msg he hf
    simp [callToolHandler, callToolErr, he, hf]
  · intro e msg he hf
    simp [callToolHandler, callToolErr, he, hf]
  · intro e res he hf
    simp [callToolHandler, he, hf]

/-- Closed instance of `tool_failures_stay_in_band`: an upstream Deribit
error reply comes back as an in-band erroring result response. -/
theorem tool_failures_stay_in_band_witness :
    (handleMcpPost [] "s1" (fun _ _ => .apiError "boom")
        ⟨some 3, some "tools/call",
         some ⟨some "get_ticker", some [("instrument_name", "BTC-PERPETUAL")]⟩⟩).2 =
      .jsonBody "s1" (.result (some 3)
        (.callRes ⟨[⟨"text", "Error: boom"⟩], true⟩)) :=
  (tool_failures_stay_in_band [] "s1" (fun _ _ => .apiError "boom")
      ⟨some 3, some "tools/call",
       some ⟨some "get_ticker", some [("instrument_name", "BTC-PERPETUAL")]⟩⟩
      ⟨some "get_ticker", some [("instrument_name", "BTC-PERPETUAL")]⟩
      rfl rfl).1

/-! ## The stored redirect_uris are never consulted after registration -/

/-- Replace the stored `redirect_uris` of one registered client (a state
modification used to express that no operation reads that field). -/
def setClientRedirectUris (st : OAuthState) (cid : String) (uris : List String) :
    OAuthState :=
  match mget st.registeredClients cid with
  | none => st
  | some c =>
      { st with registeredClients :=
          (mset st.registeredClients cid { c with redirect_uris := uris }) }

theorem setClientRedirectUris_preserves (st : OAuthState) (cid : String)
    (uris : List String) :
    (setClientRedirectUris st cid uris).authorizationCodes = st.authorizationCodes ∧
    (setClientRedirectUris st cid uris).accessTokens = st.accessTokens ∧
    (setClientRedirectUris st cid uris).refreshTokens = st.refreshTokens := by
  rcases hm : mget st.registeredClients cid with _ | c <;>
    simp [setClientRedirectUris, hm]

theorem setClientRedirectUris_secret (st : OAuthState) (cid : String)
    (uris : List String) (k : String) :
    (mget (setClientRedirectUris st cid uris).registeredClients k).map
      RegisteredClient.client_secret =
    (mget st.registeredClients k).map RegisteredClient.client_secret := by
  rcases hm : mget st.registeredClients cid with _ | c
  · simp [setClientRedirectUris, hm]
  · by_cases hk : k = cid
    · subst hk
      simp [setClientRedirectUris, hm, mget_mset_self]
    · simp [setClientRedirectUris, hm, mget_mset_ne _ _ _ _ hk]

theorem exchange_snd_congr (st₁ st₂ : OAuthState)
    (h : st₁.authorizationCodes = st₂.authorizationCodes) (now : Nat)
    (hashS256 : String → String) (a r : String) (code cidO verifier : Option String) :
    (exchangeAuthorizationCode st₁ now hashS256 a r code cidO verifier).2 =
    (exchangeAuthorizationCode st₂ now hashS256 a r code cidO verifier).2 := by
  rcases code with _ | c
  · rfl
  · rcases hm : mget st₂.authorizationCodes c with _ | ac
    · have hm₁ : mget st₁.authorizationCodes c = none := by rw [h, hm]
      simp [exchangeAuthorizationCode, hm, hm₁]
    · have hm₁ : mget st₁.authorizationCodes c = some ac := by rw [h, hm]
      by_cases hexp : now > ac.expires_at
      · simp [exchangeAuthorizationCode, hm, hm₁, hexp]
      · by_cases hbind : cidO ≠ some ac.client_id
        · simp [exchangeAuthorizationCode, hm, hm₁, hexp, hbind]
        · by_cases hch : jstruthy ac.code_challenge
          · by_cases hv : jstruthy verifier
            · by_cases hcc : computeChallenge hashS256 ac.code_challenge_method
                (verifier.getD "") ≠ ac.code_challenge.getD ""
              · simp [exchangeAuthorizationCode, hm, hm₁, hexp, hbind, hch, hv, hcc]
              · simp [exchangeAuthorizationCode, hm, hm₁, hexp, hbind, hch, hv, hcc]
            · simp [exchangeAuthorizationCode, hm, hm₁, hexp, hbind, hch, hv]
          · simp [exchangeAuthorizationCode, hm, hm₁, hexp, hbind, hch]

theorem refresh_snd_congr (st₁ st₂ : OAuthState)
    (h : st₁.refreshTokens = st₂.refreshTokens) (now : Nat) (a : String)
    (rt cidO : Option String) :
    (refreshGrant st₁ now a rt cidO).2 = (refreshGrant st₂ now a rt cidO).2 := by
  rcases hm : mgetO st₂.refreshTokens rt with _ | td
  · have hm₁ : mgetO st₁.refreshTokens rt = none := by rw [h, hm]
    simp [refreshGrant, hm, hm₁]
  · have hm₁ : mgetO st₁.refreshTokens rt = some td := by rw [h, hm]
    by_cases hb : cidO ≠ some td.client_id
    · simp [refreshGrant, hm, hm₁, hb]
    · simp [refreshGrant, hm, hm₁, hb]

theorem grantDispatch_snd_congr (st₁ st₂ : OAuthState)
    (hcodes : st₁.authorizationCodes = st₂.authorizationCodes)
    (hrefresh : st₁.refreshTokens = st₂.refreshTokens) (now : Nat)
    (hashS256 : String → String) (a r : String)
    (grant_type code refresh_token cidO verifier : Option String) :
    (grantDispatch st₁ now hashS256 a r grant_type code refresh_token cidO verifier).2 =
    (grantDispatch st₂ now hashS256 a r grant_type code refresh_token cidO verifier).2 := by
  by_cases hg : grant_type = some "authorization_code"
  · simpa [grantDispatch, hg] using
      exchange_snd_congr st₁ st₂ hcodes now hashS256 a r code cidO verifier
  · by_cases hg₂ : grant_type = some "refresh_token"
    · simpa [grantDispatch, hg, hg₂] using
        refresh_snd_congr st₁ st₂ hrefresh now a refresh_token cidO
    · simp [grantDispatch, hg, hg₂]

/-- The token endpoint's observable outcome is unchanged when a registered
client's stored redirect_uris are replaced: the field is never read. -/
theorem tokenEndpoint_ignores_redirect_uris (st : OAuthState) (cid : String)
    (uris : List String) (now : Nat) (hashS256 : String → String) (a r : String)
    (grant_type code refresh_token tcid tsec tv : Option String) :
    (tokenEndpoint (setClientRedirectUris st cid uris) now hashS256 a r grant_type
      code refresh_token tcid tsec tv).2 =
    (tokenEndpoint st now hashS256 a r grant_type code refresh_token tcid tsec tv).2 := by
  obtain ⟨hcodes, hacc, hrefresh⟩ := setClientRedirectUris_preserves st cid uris
  by_cases htr : jstruthy tsec
  · rcases tcid with _ | x
    · simp [tokenEndpoint, htr, mgetO]
    · have hsec := setClientRedirectUris_secret st cid uris x
      rcases hm : mget st.registeredClients x with _ | c
      · have hmM : mget (setClientRedirectUris st cid uris).registeredClients x = none := by
          rw [hm] at hsec
          simpa using hsec
        simp [tokenEndpoint, htr, mgetO, hm, hmM]
      · rcases hmM : mget (setClientRedirectUris st cid uris).registeredClients x with _ | cM
        · rw [hm, hmM] at hsec
          simp at hsec
        · have hsecEq : cM.client_secret = c.client_secret := by
            rw [hm, hmM] at hsec
            simpa using hsec
          by_cases hmatch : c.client_secret ≠ tsec.getD ""
          · have hmatchM : cM.client_secret ≠ tsec.getD "" := by
              rw [hsecEq]
              exact hmatch
            simp [tokenEndpoint, htr, mgetO, hm, hmM, hmatch, hmatchM]
          · have hmatchM : ¬ cM.client_secret ≠ tsec.getD "" := by
              rw [hsecEq]
              exact hmatch
            simpa [tokenEndpoint, htr, mgetO, hm, hmM, hmatch, hmatchM] using
              grantDispatch_snd_congr _ _ hcodes hrefresh now hashS256 a r
                grant_type code refresh_token (some x) tv
  · simpa [tokenEndpoint, htr] using
      grantDispatch_snd_congr _ _ hcodes hrefresh now hashS256 a r
        grant_type code refresh_token tcid tv

/-- C10 (implicit): for a registered client, `authorize` accepts a
caller-supplied redirect_uri without ever comparing it against the client's
registered redirect_uris: the code-bearing redirect goes to the supplied URI
(whenever the external URL constructor accepts it), and replacing the stored
redirect_uris changes neither the authorize outcome, nor the stored code,
nor any token-endpoint or registration outcome — no operation consults the
field after registration. -/
theorem redirect_uri_never_validated (st : OAuthState) (now : Nat)
    (freshCode : String) (urlOk : String → Bool) (cid uri : String)
    (client : RegisteredClient) (state ch chm : Option String)
    (uris' : List String)
    (hclient : mget st.registeredClients cid = some client)
    (hurl : urlOk uri = true) :
    (authorize st now freshCode urlOk (some cid) (some uri) state ch chm).2 =
      .redirect uri ([("code", freshCode)] ++
        if jstruthy state then [("state", state.getD "")] else []) ∧
    (authorize (setClientRedirectUris st cid uris') now freshCode urlOk (some cid)
        (some uri) state ch chm).2 =
      (authorize st now freshCode urlOk (some cid) (some uri) state ch chm).2 ∧
    (authorize (setClientRedirectUris st cid uris') now freshCode urlOk (some cid)
        (some uri) state ch chm).1.authorizationCodes =
      (authorize st now freshCode urlOk (some cid) (some uri) state ch
        chm).1.authorizationCodes ∧
    (∀ (now' : Nat) (hashS256 : String → String) (a r : String)
      (gt code rt tcid tsec tv : Option String),
      (tokenEndpoint (setClientRedirectUris st cid uris') now' hashS256 a r gt code
        rt tcid tsec tv).2 =
      (tokenEndpoint st now' hashS256 a r gt code rt tcid tsec tv).2) ∧
    (∀ (now' : Nat) (fid fsec : String) (nm : Option String)
      (us : Option (List String)),
      (registerClient (setClientRedirectUris st cid uris') now' fid fsec nm us).2 =
      (registerClient st now' fid fsec nm us).2) := by
  have hclientM : mget (setClientRedirectUris st cid uris').registeredClients cid =
      some { client with redirect_uris := uris' } := by
    simp [setClientRedirectUris, hclient, mget_mset_self]
  obtain ⟨hcodes, hacc, hrefresh⟩ := setClientRedirectUris_preserves st cid uris'
  refine ⟨?_, ?_, ?_, ?_, ?_⟩
  · simp [authorize, mgetO, hclient, hurl]
  · simp [authorize, mgetO, hclient, hclientM, hurl]
  · simp [authorize, mgetO, hclient, hclientM, hurl, hcodes]
  · intro now' hashS256 a r gt code rt tcid tsec tv
    exact tokenEndpoint_ignores_redirect_uris st cid uris' now' hashS256 a r gt
      code rt tcid tsec tv
  · intro now' fid fsec nm us
    rfl

/-- Closed instance of `redirect_uri_never_validated`: a URI absent from the
registered list still receives the code-bearing redirect, and emptying the
stored list changes nothing. -/
theorem redirect_uri_never_validated_witness :
    (authorize registeredClientState 0 "code1" (fun _ => true) (some "client_a")
        (some "https://attacker.example/cb") none none none).2 =
      .redirect "https://attacker.example/cb" [("code", "code1")] ∧
    (authorize (setClientRedirectUris registeredClientState "client_a" []) 0 "code1"
        (fun _ => true) (some "client_a") (some "https://attacker.example/cb")
        none none none).2 =
      (authorize registeredClientState 0 "code1" (fun _ => true) (some "client_a")
        (some "https://attacker.example/cb") none none none).2 :=
  ⟨(redirect_uri_never_validated registeredClientState 0 "code1" (fun _ => true)
      "client_a" "https://attacker.example/cb"
      ⟨"client_a", "secret_a", "A", defaultRedirectUris, 0⟩ none none none []
      (by decide) rfl).1,
   (redirect_uri_never_validated registeredClientState 0 "code1" (fun _ => true)
      "client_a" "https://attacker.example/cb"
      ⟨"client_a", "secret_a", "A", defaultRedirectUris, 0⟩ none none none []
      (by decide) rfl).2.1⟩

end DeribitMCP
